import Mathlib

/-!
Shallow embedding of `src/tiktok_backend_server.js`: the session lifecycle
manager and event fan-out engine of the TikTok live-chat relay server.

The JS program keeps one process-wide `Map` called `activeConnections` from a
username to the `WebcastPushConnection` object for that username (the
Registry), and exposes three HTTP handlers (`/api/start-chat`,
`/api/stop-chat`, `/api/check-live`).  Upstream events (`chat`, `member`,
`like`, `gift`, `share`, `follow`, `streamEnd`, `disconnected`) plus the
resolution of the asynchronous `connect()` promise mutate the Registry and
broadcast Socket.IO events via `io.emit`.

The embedding makes every effect explicit state:
  * `activeConnections` is an association list with JS `Map` semantics;
  * `sessions` logs every `WebcastPushConnection` constructed (so that
    "exactly one Upstream Session was constructed" is statable), together
    with the listeners attached to it and the observed connect outcome;
  * `broadcasts` logs every `io.emit` in order;
  * `disconnectCalls` logs every invocation of `connection.disconnect()`.

The JS runtime is single-threaded and cooperative: each synchronous block of
the source (an HTTP handler body up to its return, a `.then`/`.catch`
continuation, an event-listener body) runs atomically, so each such block is
one Lean function from state to state.  Promise resolutions and upstream
events are separate steps applied after the synchronous block that set
them up.
-/

/-- The eight upstream event types that `/api/start-chat` subscribes to
(`tiktokConnection.on(...)`, source lines 127-224). -/
inductive EventType where
  | chat | member | like | gift | share | follow | streamEnd | disconnected
deriving DecidableEq, Repr

/-- Outcome of an upstream `connect()` promise, as observed by the server:
still pending, resolved (the `.then` handler ran), or rejected (the `.catch`
handler ran). -/
inductive ConnectState where
  | pending | resolvedOk | resolvedErr
deriving DecidableEq, Repr

/-- The room-state object a successful `connect()` resolves with.  The source
reads it with optional chaining (`state.roomInfo?.title`,
`state.roomInfo?.userCount`), so both fields are optional. -/
structure RoomStateInfo where
  title : Option String
  userCount : Option Nat
deriving DecidableEq, Repr

/-- One constructed `WebcastPushConnection`: its construction index, the
username it was built for, the listeners attached to it, and what its
`connect()` promise has done so far.  Listeners are never detached in the
source, so `listeners` only grows. -/
structure UpstreamSession where
  id : Nat
  username : String
  listeners : List EventType
  connectState : ConnectState
deriving DecidableEq, Repr

/-- Payload of a `tiktok-status` broadcast (source lines 107, 119, 208, 219,
251): one constructor per `type` tag, carrying exactly the fields the source
puts in the emitted object. -/
inductive StatusPayload where
  | connected (username : String) (title : Option String) (viewers : Option Nat)
  | error (username : String) (error : String)
  | ended (username : String) (message : String)
  | disconnected (username : String)
  | stopped (username : String)
deriving DecidableEq, Repr

/-- Payload of a `tiktok-message` broadcast (chat handler, lines 127-137). -/
structure TikTokMessage where
  username : String
  nickname : String
  message : String
  timestamp : String
  profilePicture : String
deriving DecidableEq, Repr

/-- Payload of a `tiktok-join` broadcast (member handler, lines 140-150);
the source also sets `type: 'join'`, constant per tag. -/
structure JoinMessage where
  username : String
  nickname : String
  message : String
  timestamp : String
deriving DecidableEq, Repr

/-- Payload of a `tiktok-like` broadcast (like handler, lines 153-164). -/
structure LikeMessage where
  username : String
  nickname : String
  likeCount : Nat
  totalLikes : Nat
  timestamp : String
deriving DecidableEq, Repr

/-- Payload of a `tiktok-gift` broadcast (gift handler, lines 167-179). -/
structure GiftMessage where
  username : String
  nickname : String
  giftName : String
  giftCount : Nat
  diamondValue : Nat
  timestamp : String
deriving DecidableEq, Repr

/-- Payload of a `tiktok-share` broadcast (share handler, lines 182-191). -/
structure ShareMessage where
  username : String
  nickname : String
  timestamp : String
deriving DecidableEq, Repr

/-- Payload of a `tiktok-follow` broadcast (follow handler, lines 194-203). -/
structure FollowMessage where
  username : String
  nickname : String
  timestamp : String
deriving DecidableEq, Repr

/-- One `io.emit(tag, payload)` call, tagged by the event name. -/
inductive Broadcast where
  | status (p : StatusPayload)
  | message (p : TikTokMessage)
  | joinEvt (p : JoinMessage)
  | likeEvt (p : LikeMessage)
  | giftEvt (p : GiftMessage)
  | shareEvt (p : ShareMessage)
  | followEvt (p : FollowMessage)
deriving DecidableEq, Repr

/-- The whole observable server state. -/
structure ServerState where
  /-- Next construction index for a `WebcastPushConnection`. -/
  nextId : Nat
  /-- Log of every constructed `WebcastPushConnection`. -/
  sessions : List UpstreamSession
  /-- The `activeConnections` Map: username to session construction index. -/
  activeConnections : List (String × Nat)
  /-- Log of every `io.emit`, in emission order. -/
  broadcasts : List Broadcast
  /-- Log of every `connection.disconnect()` invocation (by session index). -/
  disconnectCalls : List Nat
deriving DecidableEq, Repr

/-- `Map.prototype.get`: value of the entry for `k`, if present. -/
def mapGet (m : List (String × Nat)) (k : String) : Option Nat :=
  (m.find? (fun p => p.1 == k)).map (·.2)

/-- `Map.prototype.has`. -/
def mapHas (m : List (String × Nat)) (k : String) : Bool :=
  (m.find? (fun p => p.1 == k)).isSome

/-- `Map.prototype.set`: replace the entry for `k` if present, else append. -/
def mapSet (m : List (String × Nat)) (k : String) (v : Nat) : List (String × Nat) :=
  if mapHas m k then m.map (fun p => if p.1 == k then (k, v) else p)
  else m ++ [(k, v)]

/-- `Map.prototype.delete`: remove the entry for `k` (a JS `Map` holds at
most one entry per key). -/
def mapDelete (m : List (String × Nat)) (k : String) : List (String × Nat) :=
  m.filter (fun p => p.1 != k)

/-! ### The `Date.prototype.toISOString` model

The chat (and other) handlers stamp each outbound message with
`new Date().toISOString()`.  ECMAScript specifies the result as the
fixed-width form `YYYY-MM-DDTHH:mm:ss.sssZ`; each field is rendered in a
fixed number of decimal digits.  The wall clock is external, so the current
time is a parameter of the event-delivery steps. -/

/-- A UTC wall-clock instant, broken into the fields `toISOString` renders. -/
structure DateTime where
  year : Nat
  month : Nat
  day : Nat
  hour : Nat
  minute : Nat
  second : Nat
  ms : Nat
deriving DecidableEq, Repr

/-- A `DateTime` that a real JS `Date` can report (field ranges of a valid
calendar instant; `toISOString` only sees years up to four digits here). -/
def DateTime.Valid (d : DateTime) : Prop :=
  d.year ≤ 9999 ∧ 1 ≤ d.month ∧ d.month ≤ 12 ∧ 1 ≤ d.day ∧ d.day ≤ 31 ∧
  d.hour ≤ 23 ∧ d.minute ≤ 59 ∧ d.second ≤ 59 ∧ d.ms ≤ 999

instance (d : DateTime) : Decidable d.Valid := by
  unfold DateTime.Valid; infer_instance

/-- Two-digit zero-padded decimal rendering. -/
def pad2 (n : Nat) : List Char :=
  [Nat.digitChar (n / 10 % 10), Nat.digitChar (n % 10)]

/-- Three-digit zero-padded decimal rendering. -/
def pad3 (n : Nat) : List Char :=
  [Nat.digitChar (n / 100 % 10), Nat.digitChar (n / 10 % 10), Nat.digitChar (n % 10)]

/-- Four-digit zero-padded decimal rendering. -/
def pad4 (n : Nat) : List Char :=
  [Nat.digitChar (n / 1000 % 10), Nat.digitChar (n / 100 % 10),
   Nat.digitChar (n / 10 % 10), Nat.digitChar (n % 10)]

/-- `Date.prototype.toISOString`: `YYYY-MM-DDTHH:mm:ss.sssZ`. -/
def toISOString (d : DateTime) : String :=
  String.mk (pad4 d.year ++ ['-'] ++ pad2 d.month ++ ['-'] ++ pad2 d.day ++ ['T'] ++
             pad2 d.hour ++ [':'] ++ pad2 d.minute ++ [':'] ++ pad2 d.second ++ ['.'] ++
             pad3 d.ms ++ ['Z'])

/-- Numeric value of a decimal digit character, `none` on a non-digit. -/
def digitVal (c : Char) : Option Nat :=
  if '0' ≤ c ∧ c ≤ '9' then some (c.toNat - 48) else none

/-- Value of two decimal digit characters. -/
def parse2 (a b : Char) : Option Nat := do
  let x ← digitVal a
  let y ← digitVal b
  pure (10 * x + y)

/-- Recognizer for a well-formed ISO-8601 UTC timestamp in the exact shape
`toISOString` emits (`YYYY-MM-DDTHH:mm:ss.sssZ`), including calendar-range
checks on month, day, hour, minute and second. -/
def isISO8601UTC (str : String) : Bool :=
  match str.data with
  | [y1, y2, y3, y4, s1, mo1, mo2, s2, d1, d2, t,
     h1, h2, c1, mi1, mi2, c2, se1, se2, p, ms1, ms2, ms3, z] =>
    s1 == '-' && s2 == '-' && t == 'T' && c1 == ':' && c2 == ':' && p == '.' && z == 'Z' &&
    (digitVal y1).isSome && (digitVal y2).isSome &&
    (digitVal y3).isSome && (digitVal y4).isSome &&
    (digitVal ms1).isSome && (digitVal ms2).isSome && (digitVal ms3).isSome &&
    (match parse2 mo1 mo2, parse2 d1 d2, parse2 h1 h2, parse2 mi1 mi2, parse2 se1 se2 with
     | some mo, some dd, some hh, some mi, some se =>
       decide (1 ≤ mo) && decide (mo ≤ 12) && decide (1 ≤ dd) && decide (dd ≤ 31) &&
       decide (hh ≤ 23) && decide (mi ≤ 59) && decide (se ≤ 59)
     | _, _, _, _, _ => false)
  | _ => false

/-! ### The upstream event payloads -/

/-- Payload of an upstream `chat` event (`data` in the chat listener). -/
structure ChatData where
  uniqueId : String
  nickname : String
  comment : String
  profilePictureUrl : String
deriving DecidableEq, Repr

/-- Payload of an upstream `member` event. -/
structure MemberData where
  uniqueId : String
  nickname : String
deriving DecidableEq, Repr

/-- Payload of an upstream `like` event. -/
structure LikeData where
  uniqueId : String
  nickname : String
  likeCount : Nat
  totalLikeCount : Nat
deriving DecidableEq, Repr

/-- Payload of an upstream `gift` event. -/
structure GiftData where
  uniqueId : String
  nickname : String
  giftName : String
  repeatCount : Nat
  diamondCount : Nat
deriving DecidableEq, Repr

/-- Payload of an upstream `share` or `follow` event. -/
structure SocialData where
  uniqueId : String
  nickname : String
deriving DecidableEq, Repr

/-! ### The operations (one per synchronous block of the source) -/

/-- Response body of `POST /api/start-chat` (username present). -/
inductive StartChatResponse where
  /-- `{success:true, message:'Ya existe una conexión activa...', username}`. -/
  | alreadyActive (username : String)
  /-- `{success:true, message:'Conexión iniciada', username}`. -/
  | started (username : String)
deriving DecidableEq, Repr

/-- The `success` field of a start-chat response (both are `success:true`). -/
def StartChatResponse.success : StartChatResponse → Bool
  | .alreadyActive _ => true
  | .started _ => true

/-- All eight listeners that `/api/start-chat` attaches, in source order. -/
def allListeners : List EventType :=
  [.chat, .member, .like, .gift, .share, .follow, .streamEnd, .disconnected]

/-- The synchronous body of `POST /api/start-chat` (lines 84-230): if the
Registry already has the username, answer "already active" and change
nothing; otherwise construct a `WebcastPushConnection`, put it in the
Registry, initiate `connect()` (its resolution is a later step, so the new
session is `pending`), attach all eight listeners, and answer "started".
All of that happens in one synchronous block, before any promise can
resolve. -/
def startChat (username : String) (s : ServerState) : StartChatResponse × ServerState :=
  if mapHas s.activeConnections username then
    (.alreadyActive username, s)
  else
    let sess : UpstreamSession :=
      { id := s.nextId, username := username,
        listeners := allListeners, connectState := .pending }
    (.started username,
     { s with
        nextId := s.nextId + 1,
        sessions := s.sessions ++ [sess],
        activeConnections := mapSet s.activeConnections username s.nextId })

/-- Record the connect outcome on the session log entry with index `sid`. -/
def markConnect (l : List UpstreamSession) (sid : Nat) (st : ConnectState) :
    List UpstreamSession :=
  l.map (fun sess => if sess.id = sid then { sess with connectState := st } else sess)

/-- Session log entry with construction index `sid`. -/
def findSession (l : List UpstreamSession) (sid : Nat) : Option UpstreamSession :=
  l.find? (fun sess => sess.id == sid)

/-- The `.then` continuation of `connect()` (lines 105-115): emit one
`tiktok-status` of type `connected` carrying the request's username and
`roomInfo: {title: state.roomInfo?.title, viewers: state.roomInfo?.userCount}`.
The Registry is not touched.  `room` is `state.roomInfo` (optional). -/
def resolveConnectOk (sid : Nat) (room : Option RoomStateInfo) (s : ServerState) :
    ServerState :=
  match findSession s.sessions sid with
  | some sess =>
    { s with
        sessions := markConnect s.sessions sid .resolvedOk,
        broadcasts := s.broadcasts ++
          [.status (.connected sess.username (room.bind (·.title))
            (room.bind (·.userCount)))] }
  | none => s

/-- The `.catch` continuation of `connect()` (lines 116-124): delete the
username from the Registry and emit one `tiktok-status` of type `error`
carrying the username and `err.message`. -/
def resolveConnectErr (sid : Nat) (errMsg : String) (s : ServerState) : ServerState :=
  match findSession s.sessions sid with
  | some sess =>
    { s with
        sessions := markConnect s.sessions sid .resolvedErr,
        activeConnections := mapDelete s.activeConnections sess.username,
        broadcasts := s.broadcasts ++ [.status (.error sess.username errMsg)] }
  | none => s

/-- The `chat` listener (lines 127-137): build the normalized message
(`username := data.uniqueId`, `nickname := data.nickname`,
`message := data.comment`, `timestamp := new Date().toISOString()`,
`profilePicture := data.profilePictureUrl`) and emit one `tiktok-message`.
The closure captures the start request's `username` but does not use it, and
it never reads `activeConnections`. -/
def onChat (username : String) (data : ChatData) (now : DateTime) (s : ServerState) :
    ServerState :=
  { s with broadcasts := s.broadcasts ++
      [.message { username := data.uniqueId, nickname := data.nickname,
                  message := data.comment, timestamp := toISOString now,
                  profilePicture := data.profilePictureUrl }] }

/-- The `member` listener (lines 140-150): emit one `tiktok-join` with the
fixed join message text. -/
def onMember (username : String) (data : MemberData) (now : DateTime) (s : ServerState) :
    ServerState :=
  { s with broadcasts := s.broadcasts ++
      [.joinEvt { username := data.uniqueId, nickname := data.nickname,
                  message := "¡Se unió al stream!", timestamp := toISOString now }] }

/-- The `like` listener (lines 153-164): emit one `tiktok-like`. -/
def onLike (username : String) (data : LikeData) (now : DateTime) (s : ServerState) :
    ServerState :=
  { s with broadcasts := s.broadcasts ++
      [.likeEvt { username := data.uniqueId, nickname := data.nickname,
                  likeCount := data.likeCount, totalLikes := data.totalLikeCount,
                  timestamp := toISOString now }] }

/-- The `gift` listener (lines 167-179): emit one `tiktok-gift`. -/
def onGift (username : String) (data : GiftData) (now : DateTime) (s : ServerState) :
    ServerState :=
  { s with broadcasts := s.broadcasts ++
      [.giftEvt { username := data.uniqueId, nickname := data.nickname,
                  giftName := data.giftName, giftCount := data.repeatCount,
                  diamondValue := data.diamondCount, timestamp := toISOString now }] }

/-- The `share` listener (lines 182-191): emit one `tiktok-share`. -/
def onShare (username : String) (data : SocialData) (now : DateTime) (s : ServerState) :
    ServerState :=
  { s with broadcasts := s.broadcasts ++
      [.shareEvt { username := data.uniqueId, nickname := data.nickname,
                   timestamp := toISOString now }] }

/-- The `follow` listener (lines 194-203): emit one `tiktok-follow`. -/
def onFollow (username : String) (data : SocialData) (now : DateTime) (s : ServerState) :
    ServerState :=
  { s with broadcasts := s.broadcasts ++
      [.followEvt { username := data.uniqueId, nickname := data.nickname,
                    timestamp := toISOString now }] }

/-- The `streamEnd` listener (lines 206-214): emit one `tiktok-status` of
type `ended` for the captured username, then delete the username from the
Registry.  `connection.disconnect()` is not invoked. -/
def onStreamEnd (username : String) (s : ServerState) : ServerState :=
  { s with
      broadcasts := s.broadcasts ++
        [.status (.ended username "El stream ha terminado")],
      activeConnections := mapDelete s.activeConnections username }

/-- The `disconnected` listener (lines 217-224): emit one `tiktok-status` of
type `disconnected` for the captured username, then delete the username from
the Registry.  `connection.disconnect()` is not invoked. -/
def onDisconnected (username : String) (s : ServerState) : ServerState :=
  { s with
      broadcasts := s.broadcasts ++ [.status (.disconnected username)],
      activeConnections := mapDelete s.activeConnections username }

/-- Response body of `POST /api/stop-chat` (username present). -/
inductive StopChatResponse where
  /-- `{success:true, message:'Conexión detenida', username}`. -/
  | stopped (username : String)
  /-- `{success:false, message:'No hay conexión activa para este usuario'}`;
  note the response has no `username` field. -/
  | noActive
deriving DecidableEq, Repr

/-- The `success` field of a stop-chat response. -/
def StopChatResponse.success : StopChatResponse → Bool
  | .stopped _ => true
  | .noActive => false

/-- The body of `POST /api/stop-chat` (lines 245-266).  If the Registry has
the username, the handler runs `connection.disconnect()`, then
`activeConnections.delete(username)`, then emits `tiktok-status` of type
`stopped`, then responds; otherwise it responds `success:false` and changes
nothing.  `disconnectThrows` says whether the external `disconnect()` call
throws synchronously; the handler has no try/catch, so a throw aborts it
after the `disconnect()` invocation and before the delete — the response
component is then `none` (Express turns the escaped exception into an error
response). -/
def stopChat (username : String) (disconnectThrows : Bool) (s : ServerState) :
    Option StopChatResponse × ServerState :=
  match mapGet s.activeConnections username with
  | some sid =>
    let s1 := { s with disconnectCalls := s.disconnectCalls ++ [sid] }
    if disconnectThrows then
      (none, s1)
    else
      (some (.stopped username),
       { s1 with
          activeConnections := mapDelete s1.activeConnections username,
          broadcasts := s1.broadcasts ++ [.status (.stopped username)] })
  | none => (some .noActive, s)

/-- Outcome of the throwaway `connect()` in `/api/check-live`, chosen by the
upstream collaborator. -/
inductive CheckLiveOutcome where
  | ok
  | fail (errMsg : String)
deriving DecidableEq, Repr

/-- Response body of `POST /api/check-live` (username present). -/
inductive CheckLiveResponse where
  /-- `{isLive:true, username, message:'Usuario está en vivo'}`. -/
  | live (username : String)
  /-- `{isLive:false, username, message:..., error}`. -/
  | notLive (username : String) (error : String)
deriving DecidableEq, Repr

/-- The body of `POST /api/check-live` (lines 48-72): construct a throwaway
`WebcastPushConnection` (no listeners, never put in the Registry), await its
`connect()`.  On success respond `isLive:true` and call `disconnect()` on the
throwaway; on failure respond `isLive:false` with the error message.
`activeConnections` is never read or written. -/
def checkLive (username : String) (outcome : CheckLiveOutcome) (s : ServerState) :
    CheckLiveResponse × ServerState :=
  let sid := s.nextId
  match outcome with
  | .ok =>
    (.live username,
     { s with
        nextId := sid + 1,
        sessions := s.sessions ++
          [{ id := sid, username := username, listeners := [],
             connectState := .resolvedOk }],
        disconnectCalls := s.disconnectCalls ++ [sid] })
  | .fail errMsg =>
    (.notLive username errMsg,
     { s with
        nextId := sid + 1,
        sessions := s.sessions ++
          [{ id := sid, username := username, listeners := [],
             connectState := .resolvedErr }] })

/-! ### Derived notions used by the claims -/

/-- Number of Registry entries for a key ("exactly one Session Record"). -/
def countKey (m : List (String × Nat)) (k : String) : Nat :=
  (m.filter (fun p => p.1 == k)).length

/-- Number of Upstream Sessions constructed for a username. -/
def countSessionsFor (l : List UpstreamSession) (u : String) : Nat :=
  (l.filter (fun sess => sess.username == u)).length

/-- The spec's abstract `Live` state for an identity: the Registry maps the
identity to a session whose `connect()` has resolved successfully. -/
def SessionLive (s : ServerState) (username : String) : Prop :=
  ∃ sid sess, mapGet s.activeConnections username = some sid ∧
    findSession s.sessions sid = some sess ∧ sess.connectState = .resolvedOk

/-- Ids in the session log are below `nextId` (holds in every reachable
state; each constructor bumps `nextId` past the id it allocates). -/
def IdsFresh (s : ServerState) : Prop :=
  ∀ sess ∈ s.sessions, sess.id < s.nextId

/-- The server state at process start: everything empty. -/
def initialState : ServerState :=
  { nextId := 0, sessions := [], activeConnections := [],
    broadcasts := [], disconnectCalls := [] }


/-! ### Lemmas about the `Map` and session-log embeddings -/

theorem find?_eq_none_of_mapHas (m : List (String × Nat)) (k : String)
    (h : mapHas m k = false) : m.find? (fun p => p.1 == k) = none := by
  rw [mapHas] at h
  exact Option.not_isSome_iff_eq_none.mp (by simp [h])

theorem countKey_eq_zero (m : List (String × Nat)) (k : String)
    (h : mapHas m k = false) : countKey m k = 0 := by
  have h0 := find?_eq_none_of_mapHas m k h
  rw [countKey, List.length_eq_zero, List.filter_eq_nil_iff]
  exact List.find?_eq_none.mp h0

theorem mapSet_of_not_has (m : List (String × Nat)) (k : String) (v : Nat)
    (h : mapHas m k = false) : mapSet m k v = m ++ [(k, v)] := by
  simp [mapSet, h]

theorem mapHas_append_self (m : List (String × Nat)) (k : String) (v : Nat) :
    mapHas (m ++ [(k, v)]) k = true := by
  cases h : m.find? (fun p => p.1 == k) <;>
    simp [mapHas, List.find?_append, h]

theorem countKey_append_self (m : List (String × Nat)) (k : String) (v : Nat) :
    countKey (m ++ [(k, v)]) k = countKey m k + 1 := by
  simp [countKey, List.filter_append]

theorem mapGet_mapDelete_self (m : List (String × Nat)) (k : String) :
    mapGet (mapDelete m k) k = none := by
  have h1 : (mapDelete m k).find? (fun p => p.1 == k) = none :=
    List.find?_eq_none.mpr fun p hp => by simpa using List.of_mem_filter hp
  rw [mapGet, h1]
  rfl

theorem find?_filter_ne (m : List (String × Nat)) (k u : String) (h : u ≠ k) :
    (m.filter (fun p => p.1 != k)).find? (fun p => p.1 == u) =
      m.find? (fun p => p.1 == u) := by
  induction m with
  | nil => rfl
  | cons p t ih =>
    by_cases hpk : p.1 = k
    · have hpu : ¬ (p.1 == u) = true := by
        simp only [hpk, beq_iff_eq]
        exact fun e => h e.symm
      rw [List.filter_cons, if_neg (by simp [hpk]), ih, List.find?_cons_of_neg t hpu]
    · by_cases hpu : p.1 = u
      · simp only [List.filter_cons, if_pos (show ((p.1 != k) = true) by simp [hpk])]
        rw [List.find?_cons_of_pos _ (by simp [hpu]),
            List.find?_cons_of_pos _ (by simp [hpu])]
      · simp only [List.filter_cons, if_pos (show ((p.1 != k) = true) by simp [hpk])]
        rw [List.find?_cons_of_neg _ (by simp [hpu]),
            List.find?_cons_of_neg _ (by simp [hpu])]
        exact ih

theorem mapGet_mapDelete_ne (m : List (String × Nat)) (k u : String) (h : u ≠ k) :
    mapGet (mapDelete m k) u = mapGet m u := by
  rw [mapGet, mapGet, mapDelete, find?_filter_ne m k u h]

theorem findSession_markConnect (l : List UpstreamSession) (sid : Nat)
    (st : ConnectState) :
    findSession (markConnect l sid st) sid =
      (findSession l sid).map (fun sess => { sess with connectState := st }) := by
  induction l with
  | nil => rfl
  | cons x t ih =>
    by_cases h : x.id = sid
    · simp [markConnect, findSession, h]
    · simp only [markConnect, findSession, List.map_cons, if_neg h] at ih ⊢
      rw [List.find?_cons_of_neg _ (by simpa using h),
          List.find?_cons_of_neg _ (by simpa using h)]
      exact ih

theorem findSession_append_fresh (l : List UpstreamSession) (sess : UpstreamSession)
    (h : ∀ x ∈ l, x.id ≠ sess.id) :
    findSession (l ++ [sess]) sess.id = some sess := by
  rw [findSession, List.find?_append]
  have h1 : l.find? (fun x => x.id == sess.id) = none :=
    List.find?_eq_none.mpr fun x hx => by simpa using h x hx
  simp [h1]

/-! ### Lemmas about the timestamp model -/

theorem digitVal_digitChar (k : Nat) (h : k < 10) :
    digitVal (Nat.digitChar k) = some k := by
  interval_cases k <;> decide

theorem digitVal_digitChar_mod (k : Nat) :
    digitVal (Nat.digitChar (k % 10)) = some (k % 10) :=
  digitVal_digitChar _ (Nat.mod_lt _ (by omega))

theorem parse2_pad (n : Nat) (h : n ≤ 99) :
    parse2 (Nat.digitChar (n / 10 % 10)) (Nat.digitChar (n % 10)) = some n := by
  rw [parse2, digitVal_digitChar_mod, digitVal_digitChar_mod]
  show some (10 * (n / 10 % 10) + n % 10) = some n
  exact congrArg some (by omega)

theorem isISO8601UTC_toISOString (d : DateTime) (h : d.Valid) :
    isISO8601UTC (toISOString d) = true := by
  obtain ⟨hy, hm1, hm2, hd1, hd2, hh, hmi, hs, hms⟩ := h
  have pm := parse2_pad d.month (by omega)
  have pd := parse2_pad d.day (by omega)
  have ph := parse2_pad d.hour (by omega)
  have pmi := parse2_pad d.minute (by omega)
  have ps := parse2_pad d.second (by omega)
  simp only [toISOString, pad4, pad2, pad3, List.cons_append, List.nil_append,
    List.append_assoc]
  simp only [isISO8601UTC, pm, pd, ph, pmi, ps, digitVal_digitChar_mod,
    Option.isSome_some, Bool.and_eq_true, beq_self_eq_true, decide_eq_true_eq]
  exact ⟨by simp, by omega⟩

/-! ### Shared concrete state for witnesses and counterexamples -/

/-- A session for `"alice"` as `/api/start-chat` constructs it. -/
def demoSession : UpstreamSession :=
  { id := 0, username := "alice", listeners := allListeners,
    connectState := .pending }

/-- The server state right after `startChat "alice" initialState`: alice is
registered and her connect is still pending. -/
def demoAlice : ServerState :=
  { nextId := 1, sessions := [demoSession],
    activeConnections := [("alice", 0)], broadcasts := [], disconnectCalls := [] }

/-- A start request for an already-registered username answers "already
active" and changes nothing (the `if` branch at line 84). -/
theorem startChat_of_has (username : String) (s : ServerState)
    (h : mapHas s.activeConnections username = true) :
    startChat username s = (.alreadyActive username, s) := by
  simp [startChat, h]

/-- A start request for a fresh username registers before connecting: the
state after the synchronous block. -/
theorem startChat_of_not_has (username : String) (s : ServerState)
    (h : mapHas s.activeConnections username = false) :
    startChat username s = (.started username,
      { s with
          nextId := s.nextId + 1,
          sessions := s.sessions ++
            [{ id := s.nextId, username := username, listeners := allListeners,
               connectState := .pending }],
          activeConnections := s.activeConnections ++ [(username, s.nextId)] }) := by
  simp [startChat, h, mapSet_of_not_has _ _ _ h]

/-! ### The claims -/

/-- C1: In `StartSession`, the Session Record is inserted into the Registry
synchronously before the asynchronous upstream connect is initiated, so two
`StartSession` calls made before the first connect resolves construct exactly
one Upstream Session, leave exactly one Session Record in the Registry, and
the second call returns the "already active" success result without touching
the state. -/
theorem startSession_idempotent_before_connect (username : String) (s : ServerState)
    (h : mapHas s.activeConnections username = false) :
    (startChat username (startChat username s).2).1 =
      StartChatResponse.alreadyActive username ∧
    (StartChatResponse.alreadyActive username).success = true ∧
    (startChat username (startChat username s).2).2 = (startChat username s).2 ∧
    countSessionsFor (startChat username (startChat username s).2).2.sessions
      username = countSessionsFor s.sessions username + 1 ∧
    countKey (startChat username (startChat username s).2).2.activeConnections
      username = 1 := by
  have h1 := startChat_of_not_has username s h
  have h2 : mapHas (startChat username s).2.activeConnections username = true := by
    rw [h1]; exact mapHas_append_self _ _ _
  rw [startChat_of_has _ _ h2]
  refine ⟨rfl, rfl, rfl, ?_, ?_⟩
  · rw [h1]
    simp [countSessionsFor, List.filter_append]
  · rw [h1]
    show countKey (s.activeConnections ++ [(username, s.nextId)]) username = 1
    rw [countKey_append_self, countKey_eq_zero _ _ h]

/-- C1 witness: at the initial state with username "alice". -/
theorem startSession_idempotent_before_connect_witness :
    mapHas initialState.activeConnections "alice" = false ∧
    ((startChat "alice" (startChat "alice" initialState).2).1 =
      StartChatResponse.alreadyActive "alice" ∧
    (StartChatResponse.alreadyActive "alice").success = true ∧
    (startChat "alice" (startChat "alice" initialState).2).2 =
      (startChat "alice" initialState).2 ∧
    countSessionsFor (startChat "alice" (startChat "alice" initialState).2).2.sessions
      "alice" = countSessionsFor initialState.sessions "alice" + 1 ∧
    countKey (startChat "alice" (startChat "alice" initialState).2).2.activeConnections
      "alice" = 1) :=
  ⟨rfl, startSession_idempotent_before_connect "alice" initialState rfl⟩

/-- C2 counterexample: with "alice" registered (session 0), a synchronously
thrown `disconnect()` error aborts the stop handler after the `disconnect`
invocation: the Session Record is NOT removed, no `status:stopped` event is
broadcast, and no success response is produced — refuting the claim that
removal and the broadcast happen even when disconnect throws synchronously. -/
theorem stopSession_sync_throw_keeps_record :
    (stopChat "alice" true demoAlice).2.activeConnections = [("alice", 0)] ∧
    (stopChat "alice" true demoAlice).2.broadcasts = [] ∧
    (stopChat "alice" true demoAlice).1 = none :=
  ⟨rfl, rfl, rfl⟩

/-- C2 (amended): for every identity with an active Session Record,
`StopSession` invokes the upstream disconnect and, whenever that invocation
returns normally (its asynchronous outcome is never observed, so an
asynchronous disconnect failure cannot prevent anything), removes the record
from the Registry, broadcasts exactly one `status:stopped` event, and
responds with success; only a synchronously thrown disconnect error prevents
the removal. -/
theorem stopSession_removes_when_disconnect_returns (username : String) (sid : Nat)
    (s : ServerState) (h : mapGet s.activeConnections username = some sid) :
    (stopChat username false s).1 = some (.stopped username) ∧
    (some (StopChatResponse.stopped username)).map StopChatResponse.success =
      some true ∧
    mapGet (stopChat username false s).2.activeConnections username = none ∧
    (stopChat username false s).2.broadcasts =
      s.broadcasts ++ [.status (.stopped username)] ∧
    (stopChat username false s).2.disconnectCalls =
      s.disconnectCalls ++ [sid] := by
  rw [stopChat, h]
  exact ⟨rfl, rfl, mapGet_mapDelete_self _ _, rfl, rfl⟩

/-- C2 witness: stopping "alice" in `demoAlice` with a normally returning
disconnect. -/
theorem stopSession_removes_when_disconnect_returns_witness :
    mapGet demoAlice.activeConnections "alice" = some 0 ∧
    ((stopChat "alice" false demoAlice).1 = some (.stopped "alice") ∧
    (some (StopChatResponse.stopped "alice")).map StopChatResponse.success =
      some true ∧
    mapGet (stopChat "alice" false demoAlice).2.activeConnections "alice" = none ∧
    (stopChat "alice" false demoAlice).2.broadcasts =
      demoAlice.broadcasts ++ [.status (.stopped "alice")] ∧
    (stopChat "alice" false demoAlice).2.disconnectCalls =
      demoAlice.disconnectCalls ++ [0]) :=
  ⟨rfl, stopSession_removes_when_disconnect_returns "alice" 0 demoAlice rfl⟩

/-- C3: after a `StartSession` whose asynchronous connect fails, the `.catch`
handler removes the identity from the Registry, leaves every other
identity's Registry entry untouched, and broadcasts exactly one
`status:error` event carrying the identity and the error's message. -/
theorem connect_failure_removes_and_reports (sid : Nat) (errMsg : String)
    (s : ServerState) (sess : UpstreamSession)
    (hs : findSession s.sessions sid = some sess) :
    mapGet (resolveConnectErr sid errMsg s).activeConnections sess.username = none ∧
    (∀ u, u ≠ sess.username →
      mapGet (resolveConnectErr sid errMsg s).activeConnections u =
        mapGet s.activeConnections u) ∧
    (resolveConnectErr sid errMsg s).broadcasts =
      s.broadcasts ++ [.status (.error sess.username errMsg)] := by
  rw [resolveConnectErr, hs]
  exact ⟨mapGet_mapDelete_self _ _,
    fun u hu => mapGet_mapDelete_ne _ _ _ hu, rfl⟩

/-- C3 witness: "alice" whose connect (session 0) rejects with "boom". -/
theorem connect_failure_removes_and_reports_witness :
    findSession demoAlice.sessions 0 = some demoSession ∧
    (mapGet (resolveConnectErr 0 "boom" demoAlice).activeConnections
      demoSession.username = none ∧
    (∀ u, u ≠ demoSession.username →
      mapGet (resolveConnectErr 0 "boom" demoAlice).activeConnections u =
        mapGet demoAlice.activeConnections u) ∧
    (resolveConnectErr 0 "boom" demoAlice).broadcasts =
      demoAlice.broadcasts ++ [.status (.error demoSession.username "boom")]) :=
  ⟨rfl, connect_failure_removes_and_reports 0 "boom" demoAlice demoSession rfl⟩

/-- C4: after a `StartSession` whose asynchronous connect succeeds with room
state carrying a title and a user count, the Registry still holds exactly one
record for the identity, that record is in the abstract `Live` state, and
exactly one `status:connected` event is broadcast carrying the identity and
`roomInfo` with that title (as `title`) and that user count (as `viewers`). -/
theorem connect_success_live_and_reports (sid : Nat) (s : ServerState)
    (sess : UpstreamSession) (room : RoomStateInfo) (title : String) (viewers : Nat)
    (hs : findSession s.sessions sid = some sess)
    (hreg : mapGet s.activeConnections sess.username = some sid)
    (hcount : countKey s.activeConnections sess.username = 1)
    (ht : room.title = some title) (hv : room.userCount = some viewers) :
    SessionLive (resolveConnectOk sid (some room) s) sess.username ∧
    countKey (resolveConnectOk sid (some room) s).activeConnections
      sess.username = 1 ∧
    (resolveConnectOk sid (some room) s).broadcasts = s.broadcasts ++
      [.status (.connected sess.username (some title) (some viewers))] := by
  have hmk : findSession (markConnect s.sessions sid .resolvedOk) sid =
      some { sess with connectState := .resolvedOk } := by
    rw [findSession_markConnect, hs]; rfl
  rw [resolveConnectOk, hs]
  refine ⟨⟨sid, { sess with connectState := .resolvedOk }, hreg, hmk, rfl⟩,
    hcount, ?_⟩
  simp [Option.bind, ht, hv]

/-- C4 witness: "alice" (session 0) whose connect resolves with room state
`{title: "Hi", userCount: 5}`. -/
theorem connect_success_live_and_reports_witness :
    findSession demoAlice.sessions 0 = some demoSession ∧
    mapGet demoAlice.activeConnections demoSession.username = some 0 ∧
    countKey demoAlice.activeConnections demoSession.username = 1 ∧
    (SessionLive (resolveConnectOk 0 (some ⟨some "Hi", some 5⟩) demoAlice)
      demoSession.username ∧
    countKey (resolveConnectOk 0 (some ⟨some "Hi", some 5⟩)
      demoAlice).activeConnections demoSession.username = 1 ∧
    (resolveConnectOk 0 (some ⟨some "Hi", some 5⟩) demoAlice).broadcasts =
      demoAlice.broadcasts ++
        [.status (.connected demoSession.username (some "Hi") (some 5))]) :=
  ⟨rfl, rfl, rfl, connect_success_live_and_reports 0 demoAlice demoSession
    ⟨some "Hi", some 5⟩ "Hi" 5 rfl rfl rfl rfl rfl⟩

/-- C5 counterexample: with "alice" registered (session 0), the `streamEnd`
handler and `StopSession` leave the same Registry but do NOT have the same
upstream-disconnect behavior: the handler invokes no `disconnect()`, while
`StopSession` invokes exactly one — refuting the claimed equivalence "same
resulting Registry state and same upstream-disconnect behavior" (the
`disconnected` handler likewise invokes none). -/
theorem streamEnd_not_stopSession_equivalent :
    (onStreamEnd "alice" demoAlice).activeConnections =
      (stopChat "alice" false demoAlice).2.activeConnections ∧
    (onStreamEnd "alice" demoAlice).disconnectCalls = [] ∧
    (onDisconnected "alice" demoAlice).disconnectCalls = [] ∧
    (stopChat "alice" false demoAlice).2.disconnectCalls = [0] :=
  ⟨rfl, rfl, rfl, rfl⟩

/-- C5 (amended): an upstream `streamEnd` or `disconnected` event for an
identity with an active Session Record removes that identity from the
Registry and broadcasts exactly one corresponding `status` event, without any
Control API call, leaving the Registry in exactly the state `StopSession`
would leave it; unlike `StopSession`, however, neither handler invokes the
upstream disconnect operation. -/
theorem streamEnd_disconnected_teardown (username : String) (sid : Nat)
    (s : ServerState) (h : mapGet s.activeConnections username = some sid) :
    mapGet (onStreamEnd username s).activeConnections username = none ∧
    (onStreamEnd username s).broadcasts = s.broadcasts ++
      [.status (.ended username "El stream ha terminado")] ∧
    (onStreamEnd username s).disconnectCalls = s.disconnectCalls ∧
    (onStreamEnd username s).activeConnections =
      (stopChat username false s).2.activeConnections ∧
    mapGet (onDisconnected username s).activeConnections username = none ∧
    (onDisconnected username s).broadcasts = s.broadcasts ++
      [.status (.disconnected username)] ∧
    (onDisconnected username s).disconnectCalls = s.disconnectCalls ∧
    (onDisconnected username s).activeConnections =
      (stopChat username false s).2.activeConnections := by
  rw [stopChat, h]
  exact ⟨mapGet_mapDelete_self _ _, rfl, rfl, rfl,
    mapGet_mapDelete_self _ _, rfl, rfl, rfl⟩

/-- C5 witness: teardown of "alice" in `demoAlice`. -/
theorem streamEnd_disconnected_teardown_witness :
    mapGet demoAlice.activeConnections "alice" = some 0 ∧
    (mapGet (onStreamEnd "alice" demoAlice).activeConnections "alice" = none ∧
    (onStreamEnd "alice" demoAlice).broadcasts = demoAlice.broadcasts ++
      [.status (.ended "alice" "El stream ha terminado")] ∧
    (onStreamEnd "alice" demoAlice).disconnectCalls = demoAlice.disconnectCalls ∧
    (onStreamEnd "alice" demoAlice).activeConnections =
      (stopChat "alice" false demoAlice).2.activeConnections ∧
    mapGet (onDisconnected "alice" demoAlice).activeConnections "alice" = none ∧
    (onDisconnected "alice" demoAlice).broadcasts = demoAlice.broadcasts ++
      [.status (.disconnected "alice")] ∧
    (onDisconnected "alice" demoAlice).disconnectCalls =
      demoAlice.disconnectCalls ∧
    (onDisconnected "alice" demoAlice).activeConnections =
      (stopChat "alice" false demoAlice).2.activeConnections) :=
  ⟨rfl, streamEnd_disconnected_teardown "alice" 0 demoAlice rfl⟩

/-- C6: each upstream `chat` event produces exactly one `tiktok-message`
broadcast (appended to the log — never dropped, never duplicated) whose
payload maps `username` to the event's `uniqueId`, `nickname` to `nickname`,
`message` to `comment`, `profilePicture` to `profilePictureUrl`, and whose
timestamp is a well-formed ISO-8601 UTC string. -/
theorem chat_event_exactly_one_message (username : String) (data : ChatData)
    (now : DateTime) (s : ServerState) (hnow : now.Valid) :
    (onChat username data now s).broadcasts = s.broadcasts ++
      [.message { username := data.uniqueId, nickname := data.nickname,
                  message := data.comment, timestamp := toISOString now,
                  profilePicture := data.profilePictureUrl }] ∧
    isISO8601UTC (toISOString now) = true :=
  ⟨rfl, isISO8601UTC_toISOString now hnow⟩

/-- C6 witness: a concrete chat event from "bob" at a concrete instant. -/
theorem chat_event_exactly_one_message_witness :
    (DateTime.mk 2024 5 7 9 30 59 7).Valid ∧
    ((onChat "alice" ⟨"bob", "Bob", "hey", "pic.png"⟩
        (DateTime.mk 2024 5 7 9 30 59 7) initialState).broadcasts =
      initialState.broadcasts ++
        [.message { username := "bob", nickname := "Bob", message := "hey",
                    timestamp := toISOString (DateTime.mk 2024 5 7 9 30 59 7),
                    profilePicture := "pic.png" }] ∧
    isISO8601UTC (toISOString (DateTime.mk 2024 5 7 9 30 59 7)) = true) :=
  ⟨by decide, chat_event_exactly_one_message "alice" ⟨"bob", "Bob", "hey", "pic.png"⟩
    (DateTime.mk 2024 5 7 9 30 59 7) initialState (by decide)⟩

/-- C7: within `StartSession` for a fresh identity, the synchronous handler
block attaches listeners for all eight upstream event types to the newly
constructed Upstream Session, and when the block returns the session's
connect is still pending — so every listener exists before the connect can
resolve. -/
theorem listeners_attached_before_connect_resolves (username : String)
    (s : ServerState) (hfresh : IdsFresh s)
    (h : mapHas s.activeConnections username = false) :
    ∃ sess, findSession (startChat username s).2.sessions s.nextId = some sess ∧
      (∀ t : EventType, t ∈ sess.listeners) ∧
      sess.connectState = ConnectState.pending := by
  rw [startChat_of_not_has username s h]
  refine ⟨{ id := s.nextId, username := username, listeners := allListeners,
            connectState := .pending }, ?_, ?_, rfl⟩
  · exact findSession_append_fresh s.sessions _
      (fun x hx => Nat.ne_of_lt (hfresh x hx))
  · intro t
    cases t <;> simp [allListeners]

/-- C7 witness: starting "alice" at the initial state. -/
theorem listeners_attached_before_connect_resolves_witness :
    IdsFresh initialState ∧
    mapHas initialState.activeConnections "alice" = false ∧
    (∃ sess, findSession (startChat "alice" initialState).2.sessions
        initialState.nextId = some sess ∧
      (∀ t : EventType, t ∈ sess.listeners) ∧
      sess.connectState = ConnectState.pending) :=
  ⟨fun x hx => absurd hx (List.not_mem_nil x), rfl,
    listeners_attached_before_connect_resolves "alice" initialState
      (fun x hx => absurd hx (List.not_mem_nil x)) rfl⟩

/-- C8: for every identity with no record in the Registry, `StopSession`
returns the explicit "no active session" result with `success:false`,
invokes no upstream disconnect, and leaves the whole state (in particular
the Registry) unchanged. -/
theorem stopSession_no_record_no_change (username : String) (dt : Bool)
    (s : ServerState) (h : mapGet s.activeConnections username = none) :
    stopChat username dt s = (some .noActive, s) ∧
    StopChatResponse.noActive.success = false := by
  rw [stopChat, h]
  exact ⟨rfl, rfl⟩

/-- C8 witness: stopping "ghost" at the initial state. -/
theorem stopSession_no_record_no_change_witness :
    mapGet initialState.activeConnections "ghost" = none ∧
    (stopChat "ghost" true initialState = (some .noActive, initialState) ∧
    StopChatResponse.noActive.success = false) :=
  ⟨rfl, stopSession_no_record_no_change "ghost" true initialState rfl⟩

/-- C9: `CheckLive` never registers a Session Record — the Registry (and the
broadcast log) is identical before and after, for every outcome; on connect
success it reports "is live" and calls `disconnect()` on the throwaway
session; on every connect failure it reports "not live" and calls no
disconnect. -/
theorem checkLive_never_registers (username : String) (outcome : CheckLiveOutcome)
    (s : ServerState) :
    (checkLive username outcome s).2.activeConnections = s.activeConnections ∧
    (checkLive username outcome s).2.broadcasts = s.broadcasts ∧
    (checkLive username .ok s).1 = .live username ∧
    (checkLive username .ok s).2.disconnectCalls =
      s.disconnectCalls ++ [s.nextId] ∧
    (∀ errMsg, (checkLive username (.fail errMsg) s).1 =
      .notLive username errMsg) ∧
    (∀ errMsg, (checkLive username (.fail errMsg) s).2.disconnectCalls =
      s.disconnectCalls) := by
  cases outcome <;>
    exact ⟨rfl, rfl, rfl, rfl, fun _ => rfl, fun _ => rfl⟩

/-- C10: the six fan-out listeners broadcast every event they receive without
consulting the Registry: each appends exactly one outbound broadcast whose
content does not depend on `activeConnections` (stated for arbitrary states,
including states where the record was already removed), each leaves the
Registry untouched, `StopSession` never detaches listeners (the session log
is unchanged), and a chat event arriving after a `streamEnd` teardown is
still broadcast. -/
theorem fanout_independent_of_registry (s : ServerState) (u : String)
    (now : DateTime) (cd : ChatData) (md : MemberData) (ld : LikeData)
    (gd : GiftData) (sd fd : SocialData) :
    ((onChat u cd now s).broadcasts = s.broadcasts ++
      [.message { username := cd.uniqueId, nickname := cd.nickname,
                  message := cd.comment, timestamp := toISOString now,
                  profilePicture := cd.profilePictureUrl }] ∧
     (onChat u cd now s).activeConnections = s.activeConnections) ∧
    ((onMember u md now s).broadcasts = s.broadcasts ++
      [.joinEvt { username := md.uniqueId, nickname := md.nickname,
                  message := "¡Se unió al stream!",
                  timestamp := toISOString now }] ∧
     (onMember u md now s).activeConnections = s.activeConnections) ∧
    ((onLike u ld now s).broadcasts = s.broadcasts ++
      [.likeEvt { username := ld.uniqueId, nickname := ld.nickname,
                  likeCount := ld.likeCount, totalLikes := ld.totalLikeCount,
                  timestamp := toISOString now }] ∧
     (onLike u ld now s).activeConnections = s.activeConnections) ∧
    ((onGift u gd now s).broadcasts = s.broadcasts ++
      [.giftEvt { username := gd.uniqueId, nickname := gd.nickname,
                  giftName := gd.giftName, giftCount := gd.repeatCount,
                  diamondValue := gd.diamondCount,
                  timestamp := toISOString now }] ∧
     (onGift u gd now s).activeConnections = s.activeConnections) ∧
    ((onShare u sd now s).broadcasts = s.broadcasts ++
      [.shareEvt { username := sd.uniqueId, nickname := sd.nickname,
                   timestamp := toISOString now }] ∧
     (onShare u sd now s).activeConnections = s.activeConnections) ∧
    ((onFollow u fd now s).broadcasts = s.broadcasts ++
      [.followEvt { username := fd.uniqueId, nickname := fd.nickname,
                    timestamp := toISOString now }] ∧
     (onFollow u fd now s).activeConnections = s.activeConnections) ∧
    (∀ dt, (stopChat u dt s).2.sessions = s.sessions) ∧
    (onChat u cd now (onStreamEnd u s)).broadcasts =
      (onStreamEnd u s).broadcasts ++
        [.message { username := cd.uniqueId, nickname := cd.nickname,
                    message := cd.comment, timestamp := toISOString now,
                    profilePicture := cd.profilePictureUrl }] := by
  refine ⟨⟨rfl, rfl⟩, ⟨rfl, rfl⟩, ⟨rfl, rfl⟩, ⟨rfl, rfl⟩, ⟨rfl, rfl⟩,
    ⟨rfl, rfl⟩, ?_, rfl⟩
  intro dt
  rw [stopChat]
  cases h : mapGet s.activeConnections u
  · rfl
  · cases dt <;> rfl
